import Mathlib

/-!
Verification of the Acoriss payment-gateway Node.js SDK.

The development shallowly embeds the two observed variants of the client
(`src/client.ts`, and the variant with `getPayment` and an `X-TIMESTAMP`
header) together with the `APIError` class and the default HMAC-SHA256
signer.  External collaborators are modelled explicitly: `JSON.stringify`
is an arbitrary serialization function passed as a parameter (the code
only requires that the same string is signed and transmitted), the HTTP
transport is a function from requests to raw outcomes, and node's
`crypto.createHmac('sha256', ...)` is modelled by an executable
HMAC-SHA256 implementation following FIPS 180-4 and RFC 2104, validated
below against published test vectors.
-/

set_option maxRecDepth 100000

/-! ### SHA-256 (FIPS 180-4), over lists of bytes represented as `Nat` -/

/-- Truncation to a 32-bit word. -/
def w32 (x : Nat) : Nat := x % 4294967296

/-- Right rotation of a 32-bit word by `n` bits. -/
def rotr32 (n x : Nat) : Nat := w32 ((x >>> n) ||| (x <<< (32 - n)))

/-- The 64 SHA-256 round constants, written in decimal. -/
def sha256K : List Nat :=
  [1116352408, 1899447441, 3049323471, 3921009573, 961987163, 1508970993,
   2453635748, 2870763221, 3624381080, 310598401, 607225278, 1426881987,
   1925078388, 2162078206, 2614888103, 3248222580, 3835390401, 4022224774,
   264347078, 604807628, 770255983, 1249150122, 1555081692, 1996064986,
   2554220882, 2821834349, 2952996808, 3210313671, 3336571891, 3584528711,
   113926993, 338241895, 666307205, 773529912, 1294757372, 1396182291,
   1695183700, 1986661051, 2177026350, 2456956037, 2730485921, 2820302411,
   3259730800, 3345764771, 3516065817, 3600352804, 4094571909, 275423344,
   430227734, 506948616, 659060556, 883997877, 958139571, 1322822218,
   1537002063, 1747873779, 1955562222, 2024104815, 2227730452, 2361852424,
   2428436474, 2756734187, 3204031479, 3329325298]

/-- The eight 32-bit working variables of the SHA-256 compression function. -/
structure Sha256State where
  a : Nat
  b : Nat
  c : Nat
  d : Nat
  e : Nat
  f : Nat
  g : Nat
  h : Nat
deriving DecidableEq

/-- The SHA-256 initial hash value, written in decimal. -/
def sha256H0 : Sha256State :=
  ⟨1779033703, 3144134277, 1013904242, 2773480762,
   1359893119, 2600822924, 528734635, 1541459225⟩

/-- Fuel-driven worker for `chunksOf`; the fuel bounds the number of chunks. -/
def chunksOfAux (n : Nat) : Nat → List α → List (List α)
  | 0, _ => []
  | _, [] => []
  | fuel + 1, x :: t => ((x :: t).take n) :: chunksOfAux n fuel ((x :: t).drop n)

/-- Splits a list into consecutive chunks of size `n` (the last one may be shorter). -/
def chunksOf (n : Nat) (l : List α) : List (List α) :=
  chunksOfAux n l.length l

/-- Big-endian interpretation of a list of bytes as a number. -/
def bytesToWordBE (bs : List Nat) : Nat :=
  bs.foldl (fun acc b => acc * 256 + b) 0

/-- Big-endian decomposition of a 32-bit word into four bytes. -/
def wordBytesBE (x : Nat) : List Nat :=
  [(x >>> 24) % 256, (x >>> 16) % 256, (x >>> 8) % 256, x % 256]

/-- Big-endian decomposition of a 64-bit length into eight bytes. -/
def lengthBytesBE (n : Nat) : List Nat :=
  [(n >>> 56) % 256, (n >>> 48) % 256, (n >>> 40) % 256, (n >>> 32) % 256,
   (n >>> 24) % 256, (n >>> 16) % 256, (n >>> 8) % 256, n % 256]

/-- SHA-256 message padding: append `0x80`, zeros up to 56 mod 64 bytes, then
the bit length as a 64-bit big-endian integer. -/
def sha256Pad (msg : List Nat) : List Nat :=
  msg ++ 128 :: List.replicate ((119 - msg.length % 64) % 64) 0 ++ lengthBytesBE (8 * msg.length)

/-- Expands the sixteen block words into the 64-entry message schedule. -/
def sha256Schedule (ws : List Nat) : Array Nat :=
  (List.range 48).foldl
    (fun w i =>
      let j := i + 16
      let x15 := w.getD (j - 15) 0
      let x2 := w.getD (j - 2) 0
      let s0 := (rotr32 7 x15) ^^^ (rotr32 18 x15) ^^^ (x15 >>> 3)
      let s1 := (rotr32 17 x2) ^^^ (rotr32 19 x2) ^^^ (x2 >>> 10)
      w.push (w32 (w.getD (j - 16) 0 + s0 + w.getD (j - 7) 0 + s1)))
    ws.toArray

/-- One round of the SHA-256 compression function. -/
def sha256Round (wi ki : Nat) (st : Sha256State) : Sha256State :=
  let s1 := (rotr32 6 st.e) ^^^ (rotr32 11 st.e) ^^^ (rotr32 25 st.e)
  let ch := (st.e &&& st.f) ^^^ ((st.e ^^^ 4294967295) &&& st.g)
  let temp1 := w32 (st.h + s1 + ch + ki + wi)
  let s0 := (rotr32 2 st.a) ^^^ (rotr32 13 st.a) ^^^ (rotr32 22 st.a)
  let maj := (st.a &&& st.b) ^^^ (st.a &&& st.c) ^^^ (st.b &&& st.c)
  let temp2 := w32 (s0 + maj)
  ⟨w32 (temp1 + temp2), st.a, st.b, st.c, w32 (st.d + temp1), st.e, st.f, st.g⟩

/-- Processes one 64-byte block, updating the hash state. -/
def sha256Block (st : Sha256State) (block : List Nat) : Sha256State :=
  let w := sha256Schedule ((chunksOf 4 block).map bytesToWordBE)
  let k := sha256K.toArray
  let fin := (List.range 64).foldl (fun s i => sha256Round (w.getD i 0) (k.getD i 0) s) st
  ⟨w32 (st.a + fin.a), w32 (st.b + fin.b), w32 (st.c + fin.c), w32 (st.d + fin.d),
   w32 (st.e + fin.e), w32 (st.f + fin.f), w32 (st.g + fin.g), w32 (st.h + fin.h)⟩

/-- Serializes the final state as the 32-byte digest. -/
def Sha256State.toBytes (st : Sha256State) : List Nat :=
  wordBytesBE st.a ++ wordBytesBE st.b ++ wordBytesBE st.c ++ wordBytesBE st.d ++
  wordBytesBE st.e ++ wordBytesBE st.f ++ wordBytesBE st.g ++ wordBytesBE st.h

/-- SHA-256 digest of a byte list. -/
def sha256 (msg : List Nat) : List Nat :=
  ((chunksOf 64 (sha256Pad msg)).foldl sha256Block sha256H0).toBytes

/-! ### HMAC-SHA256 (RFC 2104) -/

/-- HMAC-SHA256 of `msg` keyed by `key`, both byte lists. -/
def hmacSha256 (key msg : List Nat) : List Nat :=
  let k0 := if 64 < key.length then sha256 key else key
  let kp := k0 ++ List.replicate (64 - k0.length) 0
  let ipadded := kp.map (fun b => b ^^^ 54)
  let opadded := kp.map (fun b => b ^^^ 92)
  sha256 (opadded ++ sha256 (ipadded ++ msg))

/-- Lowercase hexadecimal digit for a value below 16. -/
def hexDigitChar (n : Nat) : Char := Char.ofNat (if n < 10 then 48 + n else 87 + n)

/-- Two lowercase hexadecimal characters per byte. -/
def bytesToHexChars : List Nat → List Char
  | [] => []
  | b :: t => hexDigitChar (b / 16) :: hexDigitChar (b % 16) :: bytesToHexChars t

/-- Lowercase hexadecimal rendering of a byte list. -/
def bytesToHex (bs : List Nat) : String := ⟨bytesToHexChars bs⟩

/-- UTF-8 encoding of a string, as a list of byte values; agrees with
`String.toUTF8`, which flat-maps `String.utf8EncodeChar` over the characters. -/
def utf8Bytes (s : String) : List Nat :=
  (s.data.flatMap String.utf8EncodeChar).map (fun b => b.toNat)

/-- Lowercase-hex HMAC-SHA256 of the UTF-8 bytes of `body`, keyed by the
UTF-8 bytes of `secret`; this is `crypto.createHmac('sha256', secret).update(body, 'utf8').digest('hex')`. -/
def hmacSha256HexUtf8 (secret body : String) : String :=
  bytesToHex (hmacSha256 (utf8Bytes secret) (utf8Bytes body))

/-- FIPS 180-4 test vector: SHA-256 of the empty message. -/
theorem sha256_empty_vector :
    bytesToHex (sha256 (utf8Bytes "")) =
      "e3b0c44298fc1c149afbf4c8996fb92427ae41e4649b934ca495991b7852b855" := by
  decide

/-- FIPS 180-4 test vector: SHA-256 of "abc". -/
theorem sha256_abc_vector :
    bytesToHex (sha256 (utf8Bytes "abc")) =
      "ba7816bf8f01cfea414140de5dae2223b00361a396177a9cb410ff61f20015ad" := by
  decide

/-- RFC 4231 test case 2: HMAC-SHA256 with key "Jefe". -/
theorem hmac_jefe_vector :
    hmacSha256HexUtf8 "Jefe" "what do ya want for nothing?" =
      "5bdcc146bf60754e6a042426089575c75a003f089d2739839dec58b964ec3843" := by
  decide

/-! ### Data model (`src/types.ts`) -/

/-- Environment selector from `src/types.ts`. -/
inductive Environment where
  | sandbox
  | live
deriving DecidableEq

/-- Signer capability from `src/types.ts`: one method `sign : string -> string`. -/
structure Signer where
  sign : String → String

/-- Customer record from `src/types.ts`. -/
structure CustomerInfo where
  email : String
  name : String
  phone : Option String := none
deriving DecidableEq

/-- Service line item from `src/types.ts`. -/
structure ServiceItem where
  name : String
  price : Int
  description : Option String := none
  quantity : Option Int := none
deriving DecidableEq

/-- Session-creation payload from `src/types.ts`; the index-signature extension
bag is modelled as an association list of opaque string-rendered values. -/
structure PaymentSessionRequest where
  amount : Int
  currency : String
  customer : CustomerInfo
  description : Option String := none
  callbackUrl : Option String := none
  cancelUrl : Option String := none
  successUrl : Option String := none
  transactionId : Option String := none
  services : Option (List ServiceItem) := none
  extra : List (String × String) := []
deriving DecidableEq

/-- Construction-time configuration from `src/types.ts`. -/
structure ClientConfig where
  apiKey : String
  apiSecret : Option String := none
  environment : Option Environment := none
  baseURL : Option String := none
  signer : Option Signer := none
  timeoutMs : Option Nat := none

/-- Per-call options of `createSession` and `getPayment`. -/
structure CallOpts where
  signatureOverride : Option String := none

/-! ### HTTP and axios model

The transport is a function from the built request to a raw outcome: either a
response (any status) or a network failure carrying the transport's message.
Axios resolves responses with a 2xx status and rejects everything else with an
`AxiosError`; for a rejected response its `message` is
`Request failed with status code N`, and for a network failure it is the
transport's description. -/

/-- HTTP verb used by the client. -/
inductive Method where
  | GET
  | POST
deriving DecidableEq

/-- An outgoing HTTP request as assembled by the client: the effective URL,
the optional raw body, and the per-call headers. -/
structure HttpRequest where
  method : Method
  url : String
  body : Option String
  headers : List (String × String)
deriving DecidableEq

/-- First header with the given name, if any. -/
def lookupHeader (name : String) (hs : List (String × String)) : Option String :=
  (hs.find? (fun p => p.fst = name)).map (fun p => p.snd)

/-- A response body, abstracted to what the client inspects: the optional
`message` field (when it is a string) plus the remaining fields, opaque. -/
structure RespBody where
  message : Option String := none
  fields : List (String × String) := []
deriving DecidableEq

/-- A received HTTP response. -/
structure HttpResponse where
  status : Nat
  body : RespBody
  headers : List (String × String)
deriving DecidableEq

/-- What the wire produced: a response, or a transport-level failure. -/
inductive RawOutcome where
  | response (r : HttpResponse)
  | netFail (message : String)
deriving DecidableEq

/-- The `AxiosError` shape the catch blocks inspect: a message and an
optional response. -/
structure AxiosError where
  message : String
  response : Option HttpResponse
deriving DecidableEq

/-- Axios dispatch: 2xx responses resolve with the parsed body; other
responses reject with a generic status message; network failures reject with
the transport's message and no response. -/
def axiosSend (transport : HttpRequest → RawOutcome) (req : HttpRequest) :
    Except AxiosError RespBody :=
  match transport req with
  | .response r =>
      if 200 ≤ r.status ∧ r.status < 300 then .ok r.body
      else .error ⟨"Request failed with status code " ++ toString r.status, some r⟩
  | .netFail m => .error ⟨m, none⟩

/-! ### Errors (`src/errors.ts` and the generic `Error`) -/

/-- The `APIError` class: message plus optional status, data and headers. -/
structure APIError where
  message : String
  status : Option Nat := none
  data : Option RespBody := none
  headers : Option (List (String × String)) := none
deriving DecidableEq

/-- An error surfaced to the caller: either a plain generic `Error` (as thrown
for a missing signature) or an `APIError` instance. -/
inductive SdkError where
  | generic (message : String)
  | api (e : APIError)
deriving DecidableEq

/-- JavaScript `a || b` on an optional string `a`: the string when present and
non-empty, else `b`. -/
def jsOrStr (a : Option String) (b : String) : String :=
  match a with
  | some s => if s = "" then b else s
  | none => b

/-- The catch block shared by every operation (`axios.isAxiosError` is true for
both rejected responses and network failures): `message` is
`e.response?.data?.message || e.message || 'Request failed'`, and `status`,
`data`, `headers` are the corresponding response fields when a response exists. -/
def mapAxiosError (e : AxiosError) : SdkError :=
  .api
    { message := jsOrStr (e.response.bind (fun r => r.body.message))
        (jsOrStr (some e.message) "Request failed")
      status := e.response.map (fun r => r.status)
      data := e.response.map (fun r => r.body)
      headers := e.response.map (fun r => r.headers) }

/-- Message of the plain `Error` thrown when no signature can be resolved. -/
def missingSignatureMessage : String :=
  "No signature available. Provide apiSecret at client init, a custom signer, or pass signatureOverride."

/-! ### Client construction (`src/client.ts` lines 12-43; the `getPayment`
variant's constructor is identical except that it additionally stores
`apiSecret` in a private field, which no operation reads after the signer is
built — the field is kept here so both variants share one client value) -/

/-- Environment-to-base-URL table `BASE_URLS`. -/
def BASE_URLS : Environment → String
  | .sandbox => "https://sandbox.checkout.rdcard.net/api/v1"
  | .live => "https://checkout.rdcard.net/api/v1"

/-- The default signer `HmacSha256Signer`: node's
`crypto.createHmac('sha256', secret).update(body, 'utf8').digest('hex')`. -/
def HmacSha256Signer (secret : String) : Signer :=
  ⟨fun body => hmacSha256HexUtf8 secret body⟩

/-- The constructed client: resolved base URL, stored API key, resolved
optional signer, timeout. -/
structure PaymentGatewayClient where
  apiKey : String
  apiSecret : Option String := none
  signer : Option Signer := none
  baseURL : String
  timeout : Nat := 15000

/-- The `PaymentGatewayClient` constructor: `environment` defaults to
`sandbox`, an explicit `baseURL` wins over the environment table (`??` keeps
an empty string), the signer is the configured one or else the default HMAC
signer when `apiSecret` is truthy (a non-empty string), and the timeout
defaults to 15000 ms. -/
def mkClient (config : ClientConfig) : PaymentGatewayClient :=
  let environment := config.environment.getD .sandbox
  let baseURL := config.baseURL.getD (BASE_URLS environment)
  { apiKey := config.apiKey
    apiSecret := config.apiSecret
    signer := config.signer <|>
      (match config.apiSecret with
       | some s => if s = "" then none else some (HmacSha256Signer s)
       | none => none)
    baseURL := baseURL
    timeout := config.timeoutMs.getD 15000 }

/-- Observable trace of one operation: the surfaced result, every string the
configured signer was asked to sign, and the HTTP request that was handed to
the transport, if any. -/
structure CallTrace (α : Type) where
  result : Except SdkError α
  signedInputs : List String
  issuedRequest : Option HttpRequest

/-- The `X-SIGNATURE` header of the issued request, if a request was issued. -/
def CallTrace.xSignature (t : CallTrace α) : Option String :=
  t.issuedRequest.bind (fun r => lookupHeader "X-SIGNATURE" r.headers)

namespace ClientTs

/-- Signature resolution of `src/client.ts` line 51,
`opts?.signatureOverride ?? this.signer?.sign(rawBody)`: the override when
present (nullish coalescing keeps an empty string), else the signer's output
when a signer is configured.  Also returns the inputs passed to the signer. -/
def resolveSignature (c : PaymentGatewayClient) (rawBody : String)
    (opts : Option CallOpts) : Option String × List String :=
  match opts.bind (fun o => o.signatureOverride) with
  | some s => (some s, [])
  | none =>
    match c.signer with
    | some g => (some (g.sign rawBody), [rawBody])
    | none => (none, [])

/-- The `createSession` of `src/client.ts` lines 49-79: stringify the payload,
resolve the signature (a missing or empty one — `if (!signature)` — throws the
plain configuration `Error` before any network activity), then POST the raw
body to `{baseURL}/sessions` with `X-API-KEY` and `X-SIGNATURE` headers and
map the axios outcome. -/
def createSession (c : PaymentGatewayClient) (stringify : PaymentSessionRequest → String)
    (payload : PaymentSessionRequest) (opts : Option CallOpts)
    (transport : HttpRequest → RawOutcome) : CallTrace RespBody :=
  let rawBody := stringify payload
  let resolved := resolveSignature c rawBody opts
  match resolved.fst with
  | none =>
    { result := .error (.generic missingSignatureMessage)
      signedInputs := resolved.snd
      issuedRequest := none }
  | some signature =>
    if signature = "" then
      { result := .error (.generic missingSignatureMessage)
        signedInputs := resolved.snd
        issuedRequest := none }
    else
      let req : HttpRequest :=
        { method := .POST
          url := c.baseURL ++ "/sessions"
          body := some rawBody
          headers := [("X-API-KEY", c.apiKey), ("X-SIGNATURE", signature)] }
      { result :=
          match axiosSend transport req with
          | .ok body => .ok body
          | .error e => .error (mapAxiosError e)
        signedInputs := resolved.snd
        issuedRequest := some req }

end ClientTs

namespace Part000

/-- Signature resolution of the `src/unnamed/part_000` variant (lines 56-65
and 97-106): a truthy (non-empty) override wins, else the signer's output when
a signer is configured — with no emptiness check on that output — else the
plain configuration `Error`.  Also returns the inputs passed to the signer. -/
def resolveSignature (c : PaymentGatewayClient) (value : String)
    (opts : Option CallOpts) : Option String × List String :=
  match opts.bind (fun o => o.signatureOverride) with
  | some s =>
    if s = "" then
      match c.signer with
      | some g => (some (g.sign value), [value])
      | none => (none, [])
    else (some s, [])
  | none =>
    match c.signer with
    | some g => (some (g.sign value), [value])
    | none => (none, [])

/-- The `createSession` of `src/unnamed/part_000` lines 52-88: as in
`src/client.ts` but with an `X-TIMESTAMP` header carrying
`Math.floor(Date.now() / 1000)` and with no emptiness check on the resolved
signature. -/
def createSession (c : PaymentGatewayClient) (stringify : PaymentSessionRequest → String)
    (payload : PaymentSessionRequest) (opts : Option CallOpts) (nowMs : Nat)
    (transport : HttpRequest → RawOutcome) : CallTrace RespBody :=
  let rawBody := stringify payload
  let timestamp := toString (nowMs / 1000)
  let resolved := resolveSignature c rawBody opts
  match resolved.fst with
  | none =>
    { result := .error (.generic missingSignatureMessage)
      signedInputs := resolved.snd
      issuedRequest := none }
  | some signature =>
    let req : HttpRequest :=
      { method := .POST
        url := c.baseURL ++ "/sessions"
        body := some rawBody
        headers := [("X-API-KEY", c.apiKey), ("X-SIGNATURE", signature),
                    ("X-TIMESTAMP", timestamp)] }
    { result :=
        match axiosSend transport req with
        | .ok body => .ok body
        | .error e => .error (mapAxiosError e)
      signedInputs := resolved.snd
      issuedRequest := some req }

/-- The `getPayment` of `src/unnamed/part_000` lines 94-129: the value signed
is the bare `paymentId`, there is no request body, and the verb is GET against
`{baseURL}/sessions/{paymentId}` with the identifier concatenated into the
path unencoded. -/
def getPayment (c : PaymentGatewayClient) (paymentId : String)
    (opts : Option CallOpts) (nowMs : Nat)
    (transport : HttpRequest → RawOutcome) : CallTrace RespBody :=
  let timestamp := toString (nowMs / 1000)
  let resolved := resolveSignature c paymentId opts
  match resolved.fst with
  | none =>
    { result := .error (.generic missingSignatureMessage)
      signedInputs := resolved.snd
      issuedRequest := none }
  | some signature =>
    let req : HttpRequest :=
      { method := .GET
        url := c.baseURL ++ "/sessions/" ++ paymentId
        body := none
        headers := [("X-API-KEY", c.apiKey), ("X-SIGNATURE", signature),
                    ("X-TIMESTAMP", timestamp)] }
    { result :=
        match axiosSend transport req with
        | .ok body => .ok body
        | .error e => .error (mapAxiosError e)
      signedInputs := resolved.snd
      issuedRequest := some req }

end Part000

/-! ### Concrete fixtures used by witnesses and counterexamples -/

/-- A custom signer returning a fixed signature. -/
def signer0 : Signer := ⟨fun _ => "sig0"⟩

/-- A client with the custom signer configured. -/
def client0 : PaymentGatewayClient :=
  { apiKey := "key0", signer := some signer0,
    baseURL := "https://sandbox.checkout.rdcard.net/api/v1" }

/-- A client with neither secret nor signer configured. -/
def clientNoSigner : PaymentGatewayClient :=
  { apiKey := "key0", baseURL := "https://sandbox.checkout.rdcard.net/api/v1" }

/-- A representative session payload. -/
def payload0 : PaymentSessionRequest :=
  { amount := 5000, currency := "USD",
    customer := { email := "test@example.com", name := "Test User" } }

/-- A concrete serialization function standing in for `JSON.stringify`. -/
def stringify0 : PaymentSessionRequest → String :=
  fun p => "amount=" ++ toString p.amount ++ ";currency=" ++ p.currency

/-- A transport that always fails at the network level. -/
def transport0 : HttpRequest → RawOutcome :=
  fun _ => .netFail "connect ECONNREFUSED"

/-! ### Support lemmas -/

/-- Recognizes the characters the hex rendering may produce: `0`-`9` and `a`-`f`. -/
def isLowerHexDigit (c : Char) : Bool :=
  (48 ≤ c.toNat && c.toNat ≤ 57) || (97 ≤ c.toNat && c.toNat ≤ 102)

theorem wordBytesBE_lt (x : Nat) : ∀ b ∈ wordBytesBE x, b < 256 := by
  intro b hb
  simp only [wordBytesBE, List.mem_cons, List.not_mem_nil, or_false] at hb
  rcases hb with h | h | h | h <;> subst h <;> exact Nat.mod_lt _ (by norm_num)

theorem sha256_mem_lt (msg : List Nat) : ∀ b ∈ sha256 msg, b < 256 := by
  intro b hb
  unfold sha256 at hb
  simp only [Sha256State.toBytes, List.mem_append] at hb
  rcases hb with ((((((h | h) | h) | h) | h) | h) | h) | h <;> exact wordBytesBE_lt _ _ h

theorem sha256_length (msg : List Nat) : (sha256 msg).length = 32 := by
  unfold sha256
  simp [Sha256State.toBytes, wordBytesBE]

theorem hmacSha256_mem_lt (key msg : List Nat) : ∀ b ∈ hmacSha256 key msg, b < 256 := by
  unfold hmacSha256
  exact sha256_mem_lt _

theorem hmacSha256_length (key msg : List Nat) : (hmacSha256 key msg).length = 32 := by
  unfold hmacSha256
  exact sha256_length _

theorem hexDigitChar_lowerHex (n : Nat) (h : n < 16) :
    isLowerHexDigit (hexDigitChar n) = true := by
  interval_cases n <;> decide

theorem bytesToHexChars_all (bs : List Nat) (h : ∀ b ∈ bs, b < 256) :
    (bytesToHexChars bs).all isLowerHexDigit = true := by
  induction bs with
  | nil => rfl
  | cons b t ih =>
    have hb : b < 256 := h b (by simp)
    simp only [bytesToHexChars, List.all_cons, Bool.and_eq_true]
    refine ⟨hexDigitChar_lowerHex _ (by omega), hexDigitChar_lowerHex _ (by omega), ?_⟩
    exact ih (fun x hx => h x (by simp [hx]))

theorem bytesToHexChars_length (bs : List Nat) :
    (bytesToHexChars bs).length = 2 * bs.length := by
  induction bs with
  | nil => rfl
  | cons b t ih => simp [bytesToHexChars, ih]; omega

/-- C2: for every input string `s` and secret `S`, the default signer built
from `apiSecret = S` is deterministic, returns exactly the HMAC-SHA256 digest
of the UTF-8 encoding of `s` keyed by `S` (the modelled
`crypto.createHmac('sha256', S)`, validated on RFC 4231 vectors above), and
the result is rendered as lowercase hexadecimal: 64 characters, each of which
is a lowercase hex digit. -/
theorem hmac_signer_deterministic_hex (S s : String) :
    (HmacSha256Signer S).sign s = (HmacSha256Signer S).sign s ∧
    (HmacSha256Signer S).sign s = bytesToHex (hmacSha256 (utf8Bytes S) (utf8Bytes s)) ∧
    ((HmacSha256Signer S).sign s).length = 64 ∧
    ((HmacSha256Signer S).sign s).data.all isLowerHexDigit = true := by
  refine ⟨rfl, rfl, ?_, ?_⟩
  · show (bytesToHexChars (hmacSha256 (utf8Bytes S) (utf8Bytes s))).length = 64
    rw [bytesToHexChars_length, hmacSha256_length]
  · show (bytesToHexChars (hmacSha256 (utf8Bytes S) (utf8Bytes s))).all isLowerHexDigit = true
    exact bytesToHexChars_all _ (hmacSha256_mem_lt _ _)

/-- C6: the effective base URL is the explicitly configured one when present;
otherwise the live host for `environment = live` and the sandbox host for
`environment = sandbox` or an omitted environment. -/
theorem effective_base_url (config : ClientConfig) :
    (mkClient config).baseURL =
      (match config.baseURL with
       | some u => u
       | none =>
         match config.environment with
         | some .live => "https://checkout.rdcard.net/api/v1"
         | _ => "https://sandbox.checkout.rdcard.net/api/v1") := by
  rcases config with ⟨k, sec, env, url, sg, t⟩
  rcases url with _ | u
  · rcases env with _ | e
    · rfl
    · cases e <;> rfl
  · rfl

/-- Axios's generic message for a rejected response is never the empty string. -/
theorem statusMessage_ne_empty (n : Nat) :
    ("Request failed with status code " ++ toString n) ≠ "" := by
  intro h
  have h2 := congrArg String.length h
  rw [String.length_append] at h2
  have h3 : ("Request failed with status code " : String).length = 32 := by decide
  have h4 : ("" : String).length = 0 := by decide
  omega

/-- The shared catch block, applied to a rejected non-2xx response: the
APIError keeps the full body, status and headers, and its message is the
body's `message` field when that is a non-empty string, else the generic text. -/
theorem mapAxiosError_response (resp : HttpResponse) :
    mapAxiosError ⟨"Request failed with status code " ++ toString resp.status, some resp⟩
      = .api
          { message :=
              (match resp.body.message with
               | some msgf =>
                 if msgf = "" then "Request failed with status code " ++ toString resp.status
                 else msgf
               | none => "Request failed with status code " ++ toString resp.status)
            status := some resp.status
            data := some resp.body
            headers := some resp.headers } := by
  rcases resp with ⟨st, ⟨msg, flds⟩, hdrs⟩
  rcases msg with _ | m
  · simp [mapAxiosError, jsOrStr, statusMessage_ne_empty st]
  · by_cases hm : m = "" <;> simp [mapAxiosError, jsOrStr, hm, statusMessage_ne_empty st]

/-- C10: when no signer is resolvable and no (truthy) override is supplied,
all three operations surface the plain generic `Error` with the fixed message,
not an `APIError` — so no status, data or headers fields exist — and no HTTP
request is issued. -/
theorem missing_signature_plain_error
    (c : PaymentGatewayClient) (stringify : PaymentSessionRequest → String)
    (payload : PaymentSessionRequest) (paymentId : String) (opts : Option CallOpts)
    (nowMs : Nat) (t : HttpRequest → RawOutcome)
    (hsg : c.signer = none)
    (hov : opts.bind (fun o => o.signatureOverride) = none ∨
           opts.bind (fun o => o.signatureOverride) = some "") :
    ((ClientTs.createSession c stringify payload opts t).result
        = .error (.generic missingSignatureMessage)
      ∧ (ClientTs.createSession c stringify payload opts t).issuedRequest = none
      ∧ ∀ e, (ClientTs.createSession c stringify payload opts t).result ≠ .error (.api e))
    ∧ ((Part000.createSession c stringify payload opts nowMs t).result
        = .error (.generic missingSignatureMessage)
      ∧ (Part000.createSession c stringify payload opts nowMs t).issuedRequest = none
      ∧ ∀ e, (Part000.createSession c stringify payload opts nowMs t).result ≠ .error (.api e))
    ∧ ((Part000.getPayment c paymentId opts nowMs t).result
        = .error (.generic missingSignatureMessage)
      ∧ (Part000.getPayment c paymentId opts nowMs t).issuedRequest = none
      ∧ ∀ e, (Part000.getPayment c paymentId opts nowMs t).result ≠ .error (.api e)) := by
  rcases hov with hov | hov <;>
    simp [ClientTs.createSession, ClientTs.resolveSignature, Part000.createSession,
      Part000.getPayment, Part000.resolveSignature, hov, hsg]

/-- C10 witness at a concrete client with neither secret, signer nor override. -/
theorem missing_signature_plain_error_witness :
    (ClientTs.createSession clientNoSigner stringify0 payload0 none transport0).result
        = .error (.generic missingSignatureMessage)
      ∧ (ClientTs.createSession clientNoSigner stringify0 payload0 none transport0).issuedRequest
        = none :=
  ⟨(missing_signature_plain_error clientNoSigner stringify0 payload0 "pay_123" none 0 transport0
      rfl (Or.inl rfl)).1.1,
   (missing_signature_plain_error clientNoSigner stringify0 payload0 "pay_123" none 0 transport0
      rfl (Or.inl rfl)).1.2.1⟩

/-- C8: on a transport failure with no response, every operation fails with an
error whose message is the transport's (non-empty) description and whose
status, data and headers are all absent. -/
theorem transport_failure_mapping
    (c : PaymentGatewayClient) (stringify : PaymentSessionRequest → String)
    (payload : PaymentSessionRequest) (paymentId : String) (s m : String) (nowMs : Nat)
    (hs : s ≠ "") (hm : m ≠ "") :
    (ClientTs.createSession c stringify payload (some { signatureOverride := some s })
        (fun _ => .netFail m)).result
      = .error (.api { message := m, status := none, data := none, headers := none })
    ∧ (Part000.createSession c stringify payload (some { signatureOverride := some s }) nowMs
        (fun _ => .netFail m)).result
      = .error (.api { message := m, status := none, data := none, headers := none })
    ∧ (Part000.getPayment c paymentId (some { signatureOverride := some s }) nowMs
        (fun _ => .netFail m)).result
      = .error (.api { message := m, status := none, data := none, headers := none }) := by
  simp [ClientTs.createSession, ClientTs.resolveSignature, Part000.createSession,
    Part000.getPayment, Part000.resolveSignature, axiosSend, mapAxiosError, jsOrStr, hs, hm]

/-- C8 witness at concrete inputs. -/
theorem transport_failure_mapping_witness :
    (ClientTs.createSession client0 stringify0 payload0 (some { signatureOverride := some "ovr" })
        (fun _ => .netFail "connect ECONNREFUSED")).result
      = .error (.api { message := "connect ECONNREFUSED", status := none, data := none,
                       headers := none }) :=
  (transport_failure_mapping client0 stringify0 payload0 "pay_123" "ovr" "connect ECONNREFUSED" 0
    (by decide) (by decide)).1

/-- A 400 response whose body carries a present-but-empty `message` field. -/
def response400 : HttpResponse :=
  { status := 400
    body := { message := some "", fields := [("code", "INVALID_REQUEST")] }
    headers := [("content-type", "application/json")] }

/-- C7 counterexample: the response body's `message` field is present (it is
the empty string), yet the surfaced APIError's message is the transport's
generic text rather than that field's value, because the code tests the field
with JavaScript truthiness rather than presence. -/
theorem api_error_message_field_present_cex :
    response400.body.message = some ""
    ∧ (ClientTs.createSession client0 stringify0 payload0
          (some { signatureOverride := some "ovr" })
          (fun _ => .response response400)).result
        = .error (.api { message := "Request failed with status code 400",
                         status := some 400, data := some response400.body,
                         headers := some response400.headers })
    ∧ ("Request failed with status code 400" : String) ≠ "" := by
  refine ⟨rfl, rfl, by decide⟩

/-- C7 (amended): on any non-2xx response, both operations fail with an
APIError whose message is the body's `message` field when that field is
present and non-empty — otherwise the transport's generic error text — whose
status is the HTTP status, whose data is the full body, and whose headers are
the response headers. -/
theorem api_error_non_2xx_mapping
    (c : PaymentGatewayClient) (stringify : PaymentSessionRequest → String)
    (payload : PaymentSessionRequest) (paymentId : String) (s : String)
    (resp : HttpResponse) (nowMs : Nat)
    (hs : s ≠ "") (hst : ¬(200 ≤ resp.status ∧ resp.status < 300)) :
    (ClientTs.createSession c stringify payload (some { signatureOverride := some s })
        (fun _ => .response resp)).result
      = .error (.api
          { message :=
              (match resp.body.message with
               | some msgf =>
                 if msgf = "" then "Request failed with status code " ++ toString resp.status
                 else msgf
               | none => "Request failed with status code " ++ toString resp.status)
            status := some resp.status
            data := some resp.body
            headers := some resp.headers })
    ∧ (Part000.createSession c stringify payload (some { signatureOverride := some s }) nowMs
        (fun _ => .response resp)).result
      = .error (.api
          { message :=
              (match resp.body.message with
               | some msgf =>
                 if msgf = "" then "Request failed with status code " ++ toString resp.status
                 else msgf
               | none => "Request failed with status code " ++ toString resp.status)
            status := some resp.status
            data := some resp.body
            headers := some resp.headers })
    ∧ (Part000.getPayment c paymentId (some { signatureOverride := some s }) nowMs
        (fun _ => .response resp)).result
      = .error (.api
          { message :=
              (match resp.body.message with
               | some msgf =>
                 if msgf = "" then "Request failed with status code " ++ toString resp.status
                 else msgf
               | none => "Request failed with status code " ++ toString resp.status)
            status := some resp.status
            data := some resp.body
            headers := some resp.headers }) := by
  have hmap := mapAxiosError_response resp
  simp only [ClientTs.createSession, ClientTs.resolveSignature, Part000.createSession,
    Part000.getPayment, Part000.resolveSignature, axiosSend, if_neg hs, if_neg hst,
    Option.bind_some, Option.bind_none] at *
  simp [hs, hmap]

/-- C7 witness: a 404 on `getPayment` with a non-empty body message. -/
theorem api_error_non_2xx_mapping_witness :
    (Part000.getPayment client0 "pay_404" (some { signatureOverride := some "ovr" }) 0
        (fun _ => .response { status := 404, body := { message := some "Not found" },
                              headers := [] })).result
      = .error (.api { message := "Not found", status := some 404,
                       data := some { message := some "Not found" }, headers := some [] }) :=
  (api_error_non_2xx_mapping client0 stringify0 payload0 "pay_404" "ovr"
    { status := 404, body := { message := some "Not found" }, headers := [] } 0
    (by decide) (by decide)).2.2

/-- The result produced after a request was handed to axios is never the
plain MissingSignature-style generic error: the catch block always wraps
failures in an APIError. -/
theorem mapped_result_ne_generic (x : Except AxiosError RespBody) (m : String) :
    (match x with
     | .ok b => (.ok b : Except SdkError RespBody)
     | .error e => .error (mapAxiosError e)) ≠ .error (.generic m) := by
  cases x <;> simp [mapAxiosError]

/-- C5 counterexample: with the empty string supplied as `signatureOverride`
and a signer configured, the client.ts variant fails with the MissingSignature
error (the override is not used verbatim), and the part_000 variant invokes
the configured signer — both contradicting the claim for this input. -/
theorem signature_override_empty_cex :
    (ClientTs.createSession client0 stringify0 payload0
        (some { signatureOverride := some "" }) transport0).result
      = .error (.generic missingSignatureMessage)
    ∧ (Part000.createSession client0 stringify0 payload0
        (some { signatureOverride := some "" }) 1733260800000 transport0).signedInputs
      = [stringify0 payload0] := by
  exact ⟨rfl, rfl⟩

/-- C5 (amended): for every payload and every supplied non-empty
`signatureOverride` — whatever secret or signer is configured — each operation
uses the override verbatim as the `X-SIGNATURE` value, never invokes the
configured signer, and does not fail with the MissingSignature error. -/
theorem signature_override_verbatim
    (c : PaymentGatewayClient) (stringify : PaymentSessionRequest → String)
    (payload : PaymentSessionRequest) (paymentId : String) (s : String) (nowMs : Nat)
    (t : HttpRequest → RawOutcome) (hs : s ≠ "") :
    ((ClientTs.createSession c stringify payload (some { signatureOverride := some s }) t).xSignature
        = some s
      ∧ (ClientTs.createSession c stringify payload (some { signatureOverride := some s }) t).signedInputs
        = []
      ∧ (ClientTs.createSession c stringify payload (some { signatureOverride := some s }) t).result
        ≠ .error (.generic missingSignatureMessage))
    ∧ ((Part000.createSession c stringify payload (some { signatureOverride := some s }) nowMs t).xSignature
        = some s
      ∧ (Part000.createSession c stringify payload (some { signatureOverride := some s }) nowMs t).signedInputs
        = []
      ∧ (Part000.createSession c stringify payload (some { signatureOverride := some s }) nowMs t).result
        ≠ .error (.generic missingSignatureMessage))
    ∧ ((Part000.getPayment c paymentId (some { signatureOverride := some s }) nowMs t).xSignature
        = some s
      ∧ (Part000.getPayment c paymentId (some { signatureOverride := some s }) nowMs t).signedInputs
        = []
      ∧ (Part000.getPayment c paymentId (some { signatureOverride := some s }) nowMs t).result
        ≠ .error (.generic missingSignatureMessage)) := by
  refine ⟨⟨?_, ?_, ?_⟩, ⟨?_, ?_, ?_⟩, ⟨?_, ?_, ?_⟩⟩ <;>
    simp [ClientTs.createSession, ClientTs.resolveSignature, Part000.createSession,
      Part000.getPayment, Part000.resolveSignature, CallTrace.xSignature, lookupHeader,
      List.find?, hs]
  all_goals exact mapped_result_ne_generic _ _

/-- C5 witness at a concrete non-empty override with a signer configured. -/
theorem signature_override_verbatim_witness :
    (ClientTs.createSession client0 stringify0 payload0
        (some { signatureOverride := some "ovr" }) transport0).xSignature = some "ovr" :=
  (signature_override_verbatim client0 stringify0 payload0 "pay_123" "ovr" 0 transport0
    (by decide)).1.1

/-- C1 counterexample: with `signatureOverride` present but equal to the empty
string and a signer configured, the client.ts `createSession` uses neither the
override nor the signer's output: it fails with the MissingSignature error and
issues no request, so the stated precedence (override used whenever present)
does not hold. -/
theorem signature_precedence_empty_override_cex :
    (some "" : Option String) = (some { signatureOverride := some "" } : Option CallOpts).bind
        (fun o => o.signatureOverride)
    ∧ client0.signer.isSome = true
    ∧ (ClientTs.createSession client0 stringify0 payload0
        (some { signatureOverride := some "" }) transport0).issuedRequest = none
    ∧ (ClientTs.createSession client0 stringify0 payload0
        (some { signatureOverride := some "" }) transport0).result
      = .error (.generic missingSignatureMessage) := by
  exact ⟨rfl, rfl, rfl, rfl⟩

/-- C1 (amended): the signature resolves by a fixed precedence over truthy
values, totally described as follows.  A supplied non-empty
`signatureOverride` is used by every operation and the signer is not invoked.
With no override supplied and a signer configured, the signer is applied to
the serialized payload (the bare identifier for `getPayment`); the client.ts
variant treats an empty signer output as a missing signature.  A supplied
empty override is treated by client.ts as a missing signature outright — the
configured signer, even when present, is never invoked — while the part_000
operations fall through an empty override to the configured signer, whose
output is used unchecked.  Whenever no signature resolves this way, the call
fails with the MissingSignature configuration error and no HTTP request is
issued. -/
theorem signature_resolution_precedence
    (c : PaymentGatewayClient) (stringify : PaymentSessionRequest → String)
    (payload : PaymentSessionRequest) (paymentId : String) (opts : Option CallOpts)
    (nowMs : Nat) (t : HttpRequest → RawOutcome) :
    (∀ s, opts.bind (fun o => o.signatureOverride) = some s → s ≠ "" →
        ((ClientTs.createSession c stringify payload opts t).xSignature = some s
          ∧ (ClientTs.createSession c stringify payload opts t).signedInputs = [])
      ∧ ((Part000.createSession c stringify payload opts nowMs t).xSignature = some s
          ∧ (Part000.createSession c stringify payload opts nowMs t).signedInputs = [])
      ∧ ((Part000.getPayment c paymentId opts nowMs t).xSignature = some s
          ∧ (Part000.getPayment c paymentId opts nowMs t).signedInputs = []))
    ∧ (∀ g, opts.bind (fun o => o.signatureOverride) = none → c.signer = some g →
        (ClientTs.createSession c stringify payload opts t).signedInputs
          = [stringify payload]
      ∧ (g.sign (stringify payload) ≠ "" →
          (ClientTs.createSession c stringify payload opts t).xSignature
            = some (g.sign (stringify payload)))
      ∧ (g.sign (stringify payload) = "" →
          (ClientTs.createSession c stringify payload opts t).result
            = .error (.generic missingSignatureMessage)
          ∧ (ClientTs.createSession c stringify payload opts t).issuedRequest = none)
      ∧ (Part000.createSession c stringify payload opts nowMs t).xSignature
          = some (g.sign (stringify payload))
      ∧ (Part000.getPayment c paymentId opts nowMs t).xSignature = some (g.sign paymentId))
    ∧ (opts.bind (fun o => o.signatureOverride) = none → c.signer = none →
        (ClientTs.createSession c stringify payload opts t).result
          = .error (.generic missingSignatureMessage)
      ∧ (ClientTs.createSession c stringify payload opts t).issuedRequest = none
      ∧ (ClientTs.createSession c stringify payload opts t).signedInputs = []
      ∧ (Part000.createSession c stringify payload opts nowMs t).result
          = .error (.generic missingSignatureMessage)
      ∧ (Part000.createSession c stringify payload opts nowMs t).issuedRequest = none
      ∧ (Part000.getPayment c paymentId opts nowMs t).result
          = .error (.generic missingSignatureMessage)
      ∧ (Part000.getPayment c paymentId opts nowMs t).issuedRequest = none)
    ∧ (opts.bind (fun o => o.signatureOverride) = some "" →
        (ClientTs.createSession c stringify payload opts t).result
          = .error (.generic missingSignatureMessage)
      ∧ (ClientTs.createSession c stringify payload opts t).issuedRequest = none
      ∧ (ClientTs.createSession c stringify payload opts t).signedInputs = [])
    ∧ (opts.bind (fun o => o.signatureOverride) = some "" →
        (∀ g, c.signer = some g →
          (Part000.createSession c stringify payload opts nowMs t).xSignature
            = some (g.sign (stringify payload))
          ∧ (Part000.createSession c stringify payload opts nowMs t).signedInputs
            = [stringify payload]
          ∧ (Part000.getPayment c paymentId opts nowMs t).xSignature
            = some (g.sign paymentId)
          ∧ (Part000.getPayment c paymentId opts nowMs t).signedInputs = [paymentId])
        ∧ (c.signer = none →
          (Part000.createSession c stringify payload opts nowMs t).result
            = .error (.generic missingSignatureMessage)
          ∧ (Part000.createSession c stringify payload opts nowMs t).issuedRequest = none
          ∧ (Part000.getPayment c paymentId opts nowMs t).result
            = .error (.generic missingSignatureMessage)
          ∧ (Part000.getPayment c paymentId opts nowMs t).issuedRequest = none)) := by
  refine ⟨?_, ?_, ?_, ?_, ?_⟩
  · intro s hov hs
    refine ⟨⟨?_, ?_⟩, ⟨?_, ?_⟩, ⟨?_, ?_⟩⟩ <;>
      simp [ClientTs.createSession, ClientTs.resolveSignature, Part000.createSession,
        Part000.getPayment, Part000.resolveSignature, CallTrace.xSignature, lookupHeader,
        List.find?, hov, hs]
  · intro g hov hg
    refine ⟨?_, ?_, ?_, ?_, ?_⟩
    · by_cases hgs : g.sign (stringify payload) = "" <;>
        simp [ClientTs.createSession, ClientTs.resolveSignature, hov, hg, hgs]
    · intro hgs
      simp [ClientTs.createSession, ClientTs.resolveSignature, CallTrace.xSignature,
        lookupHeader, List.find?, hov, hg, hgs]
    · intro hgs
      constructor <;>
        simp [ClientTs.createSession, ClientTs.resolveSignature, hov, hg, hgs]
    · simp [Part000.createSession, Part000.resolveSignature, CallTrace.xSignature,
        lookupHeader, List.find?, hov, hg]
    · simp [Part000.getPayment, Part000.resolveSignature, CallTrace.xSignature,
        lookupHeader, List.find?, hov, hg]
  · intro hov hg
    refine ⟨?_, ?_, ?_, ?_, ?_, ?_, ?_⟩ <;>
      simp [ClientTs.createSession, ClientTs.resolveSignature, Part000.createSession,
        Part000.getPayment, Part000.resolveSignature, hov, hg]
  · intro hov
    refine ⟨?_, ?_, ?_⟩ <;>
      simp [ClientTs.createSession, ClientTs.resolveSignature, hov]
  · intro hov
    constructor
    · intro g hg
      refine ⟨?_, ?_, ?_, ?_⟩ <;>
        simp [Part000.createSession, Part000.getPayment, Part000.resolveSignature,
          CallTrace.xSignature, lookupHeader, List.find?, hov, hg]
    · intro hg
      refine ⟨?_, ?_, ?_, ?_⟩ <;>
        simp [Part000.createSession, Part000.getPayment, Part000.resolveSignature, hov, hg]

/-- C1 witness: a supplied non-empty override resolves as the signature. -/
theorem signature_resolution_precedence_witness :
    (ClientTs.createSession client0 stringify0 payload0
        (some { signatureOverride := some "ovr" }) transport0).xSignature = some "ovr" :=
  ((signature_resolution_precedence client0 stringify0 payload0 "pay_123"
      (some { signatureOverride := some "ovr" }) 0 transport0).1 "ovr" rfl (by decide)).1.1

/-- C3: with a signer configured and no override supplied, `getPayment` passes
exactly the bare identifier string to the signer (not a JSON envelope), and —
for any resolution path — every issued request is a GET with no body whose URL
is the literal concatenation of the base URL, "/sessions/" and the identifier,
with no URL encoding applied. -/
theorem getPayment_signs_bare_id
    (c : PaymentGatewayClient) (g : Signer) (paymentId : String) (opts : Option CallOpts)
    (nowMs : Nat) (t : HttpRequest → RawOutcome)
    (hov : opts.bind (fun o => o.signatureOverride) = none)
    (hg : c.signer = some g) :
    (Part000.getPayment c paymentId opts nowMs t).signedInputs = [paymentId]
    ∧ ∀ req, (Part000.getPayment c paymentId opts nowMs t).issuedRequest = some req →
        req.method = .GET
        ∧ req.url = c.baseURL ++ "/sessions/" ++ paymentId
        ∧ req.body = none := by
  constructor
  · simp [Part000.getPayment, Part000.resolveSignature, hov, hg]
  · intro req hreq
    simp [Part000.getPayment, Part000.resolveSignature, hov, hg] at hreq
    subst hreq
    exact ⟨rfl, rfl, rfl⟩

/-- The concrete GET request `getPayment` issues in the C3 witness scenario. -/
def requestG : HttpRequest :=
  { method := .GET
    url := "https://sandbox.checkout.rdcard.net/api/v1" ++ "/sessions/" ++ "pay_123"
    body := none
    headers := [("X-API-KEY", "key0"), ("X-SIGNATURE", "sig0"), ("X-TIMESTAMP", "0")] }

/-- C3 witness at a concrete client, signer and identifier. -/
theorem getPayment_signs_bare_id_witness :
    (Part000.getPayment client0 "pay_123" none 0 transport0).signedInputs = ["pay_123"]
    ∧ (Part000.getPayment client0 "pay_123" none 0 transport0).issuedRequest = some requestG
    ∧ requestG.method = .GET
    ∧ requestG.url = client0.baseURL ++ "/sessions/" ++ "pay_123"
    ∧ requestG.body = none :=
  ⟨(getPayment_signs_bare_id client0 signer0 "pay_123" none 0 transport0 rfl rfl).1, rfl,
   (getPayment_signs_bare_id client0 signer0 "pay_123" none 0 transport0 rfl rfl).2 requestG rfl⟩

/-- C4: for both `createSession` variants, every string handed to the signer
is exactly the serialized payload, every issued request transmits that same
string as its body in a POST to `{baseURL}/sessions`, and the request carries
`X-API-KEY` equal to the configured key and `X-SIGNATURE` equal to the
resolved signature. -/
theorem createSession_signs_transmitted_body
    (c : PaymentGatewayClient) (stringify : PaymentSessionRequest → String)
    (payload : PaymentSessionRequest) (opts : Option CallOpts) (nowMs : Nat)
    (t : HttpRequest → RawOutcome) :
    (∀ x ∈ (ClientTs.createSession c stringify payload opts t).signedInputs,
        x = stringify payload)
    ∧ (∀ req, (ClientTs.createSession c stringify payload opts t).issuedRequest = some req →
        req.method = .POST
        ∧ req.url = c.baseURL ++ "/sessions"
        ∧ req.body = some (stringify payload)
        ∧ lookupHeader "X-API-KEY" req.headers = some c.apiKey
        ∧ lookupHeader "X-SIGNATURE" req.headers
            = (ClientTs.resolveSignature c (stringify payload) opts).fst)
    ∧ (∀ x ∈ (Part000.createSession c stringify payload opts nowMs t).signedInputs,
        x = stringify payload)
    ∧ (∀ req, (Part000.createSession c stringify payload opts nowMs t).issuedRequest = some req →
        req.method = .POST
        ∧ req.url = c.baseURL ++ "/sessions"
        ∧ req.body = some (stringify payload)
        ∧ lookupHeader "X-API-KEY" req.headers = some c.apiKey
        ∧ lookupHeader "X-SIGNATURE" req.headers
            = (Part000.resolveSignature c (stringify payload) opts).fst) := by
  refine ⟨?_, ?_, ?_, ?_⟩
  · rcases hov : opts.bind (fun o => o.signatureOverride) with _ | s
    · rcases hg : c.signer with _ | g
      · simp [ClientTs.createSession, ClientTs.resolveSignature, hov, hg]
      · by_cases hgs : g.sign (stringify payload) = "" <;>
          simp [ClientTs.createSession, ClientTs.resolveSignature, hov, hg, hgs]
    · by_cases hs : s = "" <;>
        simp [ClientTs.createSession, ClientTs.resolveSignature, hov, hs]
  · intro req hreq
    rcases hov : opts.bind (fun o => o.signatureOverride) with _ | s
    · rcases hg : c.signer with _ | g
      · simp [ClientTs.createSession, ClientTs.resolveSignature, hov, hg] at hreq
      · by_cases hgs : g.sign (stringify payload) = ""
        · simp [ClientTs.createSession, ClientTs.resolveSignature, hov, hg, hgs] at hreq
        · simp [ClientTs.createSession, ClientTs.resolveSignature, hov, hg, hgs] at hreq
          subst hreq
          refine ⟨rfl, rfl, rfl, ?_, ?_⟩ <;>
            simp [lookupHeader, List.find?, ClientTs.resolveSignature, hov, hg]
    · by_cases hs : s = ""
      · simp [ClientTs.createSession, ClientTs.resolveSignature, hov, hs] at hreq
      · simp [ClientTs.createSession, ClientTs.resolveSignature, hov, hs] at hreq
        subst hreq
        refine ⟨rfl, rfl, rfl, ?_, ?_⟩ <;>
          simp [lookupHeader, List.find?, ClientTs.resolveSignature, hov]
  · rcases hov : opts.bind (fun o => o.signatureOverride) with _ | s
    · rcases hg : c.signer with _ | g <;>
        simp [Part000.createSession, Part000.resolveSignature, hov, hg]
    · by_cases hs : s = ""
      · rcases hg : c.signer with _ | g <;>
          simp [Part000.createSession, Part000.resolveSignature, hov, hs, hg]
      · simp [Part000.createSession, Part000.resolveSignature, hov, hs]
  · intro req hreq
    rcases hov : opts.bind (fun o => o.signatureOverride) with _ | s
    · rcases hg : c.signer with _ | g
      · simp [Part000.createSession, Part000.resolveSignature, hov, hg] at hreq
      · simp [Part000.createSession, Part000.resolveSignature, hov, hg] at hreq
        subst hreq
        refine ⟨rfl, rfl, rfl, ?_, ?_⟩ <;>
          simp [lookupHeader, List.find?, Part000.resolveSignature, hov, hg]
    · by_cases hs : s = ""
      · rcases hg : c.signer with _ | g
        · simp [Part000.createSession, Part000.resolveSignature, hov, hs, hg] at hreq
        · simp [Part000.createSession, Part000.resolveSignature, hov, hs, hg] at hreq
          subst hreq
          refine ⟨rfl, rfl, rfl, ?_, ?_⟩ <;>
            simp [lookupHeader, List.find?, Part000.resolveSignature, hov, hs, hg]
      · simp [Part000.createSession, Part000.resolveSignature, hov, hs] at hreq
        subst hreq
        refine ⟨rfl, rfl, rfl, ?_, ?_⟩ <;>
          simp [lookupHeader, List.find?, Part000.resolveSignature, hov, hs]

/-- The concrete POST request `createSession` issues in the C4 witness scenario. -/
def requestW : HttpRequest :=
  { method := .POST
    url := "https://sandbox.checkout.rdcard.net/api/v1" ++ "/sessions"
    body := some (stringify0 payload0)
    headers := [("X-API-KEY", "key0"), ("X-SIGNATURE", "ovr")] }

/-- C4 witness at a concrete client, payload and override. -/
theorem createSession_signs_transmitted_body_witness :
    (ClientTs.createSession client0 stringify0 payload0
        (some { signatureOverride := some "ovr" }) transport0).issuedRequest = some requestW
    ∧ requestW.method = .POST
    ∧ requestW.url = client0.baseURL ++ "/sessions"
    ∧ requestW.body = some (stringify0 payload0)
    ∧ lookupHeader "X-API-KEY" requestW.headers = some client0.apiKey
    ∧ lookupHeader "X-SIGNATURE" requestW.headers
        = (ClientTs.resolveSignature client0 (stringify0 payload0)
            (some { signatureOverride := some "ovr" })).fst :=
  ⟨rfl,
   (createSession_signs_transmitted_body client0 stringify0 payload0
      (some { signatureOverride := some "ovr" }) 0 transport0).2.1 requestW rfl⟩

deriving instance DecidableEq for Except

/-- Appends the `X-TIMESTAMP` header the part_000 variant adds to a request. -/
def addTimestampHeader (nowMs : Nat) (r : HttpRequest) : HttpRequest :=
  { r with headers := r.headers ++ [("X-TIMESTAMP", toString (nowMs / 1000))] }

/-- C9 counterexample: with a signer configured and the empty string supplied
as `signatureOverride`, the client.ts variant fails with the MissingSignature
error while the part_000 variant falls through to the signer and surfaces the
transport failure as an APIError — the two variants do not succeed or fail
identically, and the difference is not the `X-TIMESTAMP` header. -/
theorem variants_empty_override_divergence_cex :
    (ClientTs.createSession client0 stringify0 payload0
        (some { signatureOverride := some "" }) transport0).result
      = .error (.generic missingSignatureMessage)
    ∧ (Part000.createSession client0 stringify0 payload0
        (some { signatureOverride := some "" }) 1733260800000 transport0).result
      = .error (.api { message := "connect ECONNREFUSED" })
    ∧ (ClientTs.createSession client0 stringify0 payload0
        (some { signatureOverride := some "" }) transport0).result
      ≠ (Part000.createSession client0 stringify0 payload0
          (some { signatureOverride := some "" }) 1733260800000 transport0).result := by
  refine ⟨rfl, rfl, by decide⟩

/-- C9 (amended): whenever any supplied override is non-empty and the
configured signer's output on the serialized body is non-empty, the two
`createSession` variants resolve the same signature, invoke the signer on the
same inputs, and produce identical results under any transport that does not
distinguish the two requests — which differ exactly by the appended
`X-TIMESTAMP` header. -/
theorem variants_equivalent_up_to_timestamp
    (c : PaymentGatewayClient) (stringify : PaymentSessionRequest → String)
    (payload : PaymentSessionRequest) (opts : Option CallOpts) (nowMs : Nat)
    (t1 t2 : HttpRequest → RawOutcome)
    (hov : ∀ s, opts.bind (fun o => o.signatureOverride) = some s → s ≠ "")
    (hsg : ∀ g, c.signer = some g → g.sign (stringify payload) ≠ "")
    (ht : ∀ r, t2 (addTimestampHeader nowMs r) = t1 r) :
    (Part000.createSession c stringify payload opts nowMs t2).result
      = (ClientTs.createSession c stringify payload opts t1).result
    ∧ (Part000.createSession c stringify payload opts nowMs t2).signedInputs
      = (ClientTs.createSession c stringify payload opts t1).signedInputs
    ∧ (Part000.createSession c stringify payload opts nowMs t2).issuedRequest
      = (ClientTs.createSession c stringify payload opts t1).issuedRequest.map
          (addTimestampHeader nowMs) := by
  rcases hovv : opts.bind (fun o => o.signatureOverride) with _ | s
  · rcases hg : c.signer with _ | g
    · refine ⟨?_, ?_, ?_⟩ <;>
        simp [ClientTs.createSession, ClientTs.resolveSignature, Part000.createSession,
          Part000.resolveSignature, hovv, hg]
    · have hgs := hsg g hg
      have hT := ht { method := .POST, url := c.baseURL ++ "/sessions",
                      body := some (stringify payload),
                      headers := [("X-API-KEY", c.apiKey),
                                  ("X-SIGNATURE", g.sign (stringify payload))] }
      simp only [addTimestampHeader, List.cons_append, List.nil_append] at hT
      refine ⟨?_, ?_, ?_⟩ <;>
        simp [ClientTs.createSession, ClientTs.resolveSignature, Part000.createSession,
          Part000.resolveSignature, hovv, hg, hgs, addTimestampHeader, axiosSend, hT]
  · have hs := hov s hovv
    have hT := ht { method := .POST, url := c.baseURL ++ "/sessions",
                    body := some (stringify payload),
                    headers := [("X-API-KEY", c.apiKey), ("X-SIGNATURE", s)] }
    simp only [addTimestampHeader, List.cons_append, List.nil_append] at hT
    refine ⟨?_, ?_, ?_⟩ <;>
      simp [ClientTs.createSession, ClientTs.resolveSignature, Part000.createSession,
        Part000.resolveSignature, hovv, hs, addTimestampHeader, axiosSend, hT]

/-- C9 witness at a concrete client, override and transport. -/
theorem variants_equivalent_up_to_timestamp_witness :
    (Part000.createSession client0 stringify0 payload0
        (some { signatureOverride := some "ovr" }) 1733260800000 transport0).result
      = (ClientTs.createSession client0 stringify0 payload0
          (some { signatureOverride := some "ovr" }) transport0).result :=
  (variants_equivalent_up_to_timestamp client0 stringify0 payload0
      (some { signatureOverride := some "ovr" }) 1733260800000 transport0 transport0
      (fun s h => by have h2 := Option.some.inj h; rw [← h2]; decide)
      (fun g h => by have h2 := Option.some.inj h; rw [← h2]; decide)
      (fun r => rfl)).1
